import Mathlib

/-!
Verification of the sber-trajectory-bot quiz application.

The development shallowly embeds the two relevant source files:

* `src/unnamed/part_000` — the Express server ("Result Store" side):
  its route table and request matching.
* `src/backend/frontend/app.js` — the client quiz engine: module-level
  mutable state, `init`, `startQuiz`, `selectAnswer`, `startTimer`'s tick
  callback, `finishQuiz`, `getTopicName`, `shuffleArray`.

Effectful operations (network fetches, timer registration, submission) are
made explicit: each embedded operation returns the successor state together
with the list of externally visible effects it performs.  Randomness
(`Math.random()`) is passed in as an explicit argument, and asynchronous
results (`fetch`) as `Except` arguments.
-/

namespace SberQuiz

/-- A question of the catalog: `{ id, question, options }` as consumed by
`displayQuestion` and `finishQuiz` in `app.js`. -/
structure Question where
  id : Nat
  question : String
  options : List String
deriving DecidableEq, Repr

/-- `const QUIZ_TIME = 15 * 60` (app.js line 13), in seconds. -/
def QUIZ_TIME : Int := 15 * 60

/-- The five screens of the presentation layer (app.js lines 35-41). -/
inductive Screen
  | loading
  | welcome
  | quiz
  | final
  | error
deriving DecidableEq, Repr

/-- The module-level mutable state of `app.js` (lines 16-21) plus the
currently shown screen and the error message text.  `timerActive` models
whether the interval registered by `startTimer` is currently live
(`timerInterval` holding an uncancelled handle). -/
structure AppState where
  currentQuestionIndex : Nat
  allQuestions : List Question
  userAnswers : List Nat
  startTime : Nat
  timerActive : Bool
  timeRemaining : Int
  screen : Screen
  errorMessage : String
deriving DecidableEq, Repr

/-- The state at module load: indices zeroed, `timeRemaining = QUIZ_TIME`,
no timer, loading screen shown. -/
def initialState : AppState :=
  { currentQuestionIndex := 0
    allQuestions := []
    userAnswers := []
    startTime := 0
    timerActive := false
    timeRemaining := QUIZ_TIME
    screen := Screen.loading
    errorMessage := "" }

/-- `'📊 Статистика'` (app.js line 142). -/
def statisticsLabel : String := "📊 Статистика"

/-- `'🎲 Теория вероятностей'` (app.js line 143). -/
def probabilityLabel : String := "🎲 Теория вероятностей"

/-- `'🤖 Machine Learning'` (app.js line 144). -/
def mlLabel : String := "🤖 Machine Learning"

/-- `getTopicName` (app.js lines 141-145): topic label from the question
identifier alone. -/
def getTopicName (id : Nat) : String :=
  if id ≤ 3 then statisticsLabel
  else if id ≤ 6 then probabilityLabel
  else mlLabel

/-!
## Server route table (`src/unnamed/part_000`)

The Express app registers exactly two API routes, both `GET`:
`/data/questions` and `/data/users_results`, plus a static-file middleware
for the frontend assets.  A request matching no registered route falls
through to the static middleware / Express's default 404; there is no
handler for the client's `GET /data/check-user/{userId}` pre-check nor for
its `POST /data/submit` submission.  Paths are modelled as segment lists
(`"/data/questions"` is `["data", "questions"]`); a pattern segment
beginning with `:` is an Express path parameter and matches any segment.
-/

/-- One segment of an Express path pattern: a literal, or a `:name`
path parameter (which matches any request segment). -/
inductive Seg
  | lit (s : String)
  | param (name : String)
deriving DecidableEq, Repr

/-- One registered Express route: HTTP method and path pattern segments. -/
structure Route where
  method : String
  pattern : List Seg
deriving DecidableEq, Repr

/-- The routes registered in `src/unnamed/part_000`:
`app.get('/data/questions', ...)` and `app.get('/data/users_results', ...)`. -/
def serverRoutes : List Route :=
  [ { method := "GET", pattern := [Seg.lit "data", Seg.lit "questions"] }
  , { method := "GET", pattern := [Seg.lit "data", Seg.lit "users_results"] } ]

/-- Does one pattern segment match one request segment? -/
def segMatches : Seg → String → Bool
  | Seg.lit p, s => p == s
  | Seg.param _, _ => true

/-- Express-style path matching: equal segment counts, segment-wise match. -/
def segmentsMatch : List Seg → List String → Bool
  | [], [] => true
  | p :: ps, s :: ss => segMatches p s && segmentsMatch ps ss
  | _, _ => false

/-- Does route `r` handle a request `method path`? -/
def routeMatches (r : Route) (method : String) (path : List String) : Bool :=
  r.method == method && segmentsMatch r.pattern path

/-- Does any registered API route of the server handle `method path`? -/
def serverHandles (method : String) (path : List String) : Bool :=
  serverRoutes.any fun r => routeMatches r method path

/-!
## `shuffleArray` (app.js lines 223-230)

```
function shuffleArray(array) {
    const newArray = [...array];
    for (let i = newArray.length - 1; i > 0; i--) {
        const j = Math.floor(Math.random() * (i + 1));
        [newArray[i], newArray[j]] = [newArray[j], newArray[i]];
    }
    return newArray;
}
```

The random draws are supplied as `randFloor : Nat → Nat`, where
`randFloor n` stands for `Math.floor(Math.random() * n)`; since every loop
iteration uses a distinct bound `i + 1`, a single function captures one
run's draws.  `Math.floor(Math.random() * n)` always lies in `[0, n)`, so
the indices of the destructuring swap are always in range; `swapAt`
performs the in-range swap and leaves the list unchanged on an
out-of-range index (which the real random source never produces).
-/

/-- Exchange the elements at positions `i` and `j` (identity when either
index is out of range, which `Math.floor(Math.random() * (i + 1))` never
produces). -/
def swapAt' (l : List α) (i j : Nat) : List α :=
  match l[i]?, l[j]? with
  | some a, some b => (l.set i b).set j a
  | _, _ => l

/-- The `for (let i = ...; i > 0; i--)` loop of `shuffleArray`, counting
the loop variable down from `i`. -/
def shuffleLoop (randFloor : Nat → Nat) : List α → Nat → List α
  | l, 0 => l
  | l, i + 1 => shuffleLoop randFloor (swapAt' l (i + 1) (randFloor (i + 2))) i

/-- `shuffleArray`: copy the input and run the Fisher-Yates loop from
index `length - 1` down to `1`. -/
def shuffleArray (randFloor : Nat → Nat) (array : List α) : List α :=
  shuffleLoop randFloor array (array.length - 1)

/-!
## Client quiz engine (`src/backend/frontend/app.js`)

The platform identity `tg.initDataUnsafe?.user?.id` is an
`Option Nat` argument, `Math.random()` draws are `String` arguments (only
their string rendering matters), and each `fetch` outcome is an `Except`
argument (`Except.error` = rejected promise).
-/

/-- `tg.initDataUnsafe?.user?.id || 'test_user_' + Math.random()`
(app.js lines 51 and 184): the identifier used for the pre-check and for
the submitted record, falling back to a freshly drawn guest identifier. -/
def jsUserId (platformUserId : Option Nat) (randomDraw : String) : String :=
  match platformUserId with
  | some uid => toString uid
  | none => "test_user_" ++ randomDraw

/-- The body of the client's `POST /submit` request (app.js lines 192-198). -/
structure SubmitRecord where
  telegram_user_id : String
  username : String
  answers : List Nat
  time_spent : Nat
  questions : List Nat
deriving DecidableEq, Repr

/-- Externally visible effects of the embedded operations. -/
inductive Effect
  | fetchCheckUser (userId : String)
  | fetchQuestions
  | startTimerEffect
  | submitResults (record : SubmitRecord)
deriving DecidableEq, Repr

/-- The catalog returned by `GET /data/questions`: three topic pools. -/
structure Catalog where
  statistics : List Question
  probability : List Question
  ml : List Question
deriving DecidableEq, Repr

/-- `'Вы уже прошли этот тест. Повторное прохождение невозможно. 🔒'`
(app.js lines 59-60). -/
def alreadyCompletedMsg : String :=
  "Вы уже прошли этот тест. Повторное прохождение невозможно. 🔒"

/-- `'Не удалось загрузить вопросы. Проверьте подключение к интернету.'`
(app.js lines 102-103). -/
def couldNotLoadMsg : String :=
  "Не удалось загрузить вопросы. Проверьте подключение к интернету."

/-- `init` (app.js lines 44-69): fetch `/check-user/{userId}` with a
possibly fresh guest identifier; on `completed: true` show the error
screen with the fixed message and return; on `completed: false` or on a
failed check (non-fatal by design) show the welcome screen. -/
def init (platformUserId : Option Nat) (randomDraw : String)
    (checkResult : Except Unit Bool) (s : AppState) : AppState × List Effect :=
  let userId := jsUserId platformUserId randomDraw
  match checkResult with
  | Except.ok true =>
      ({ s with screen := Screen.error, errorMessage := alreadyCompletedMsg },
       [Effect.fetchCheckUser userId])
  | Except.ok false =>
      ({ s with screen := Screen.welcome }, [Effect.fetchCheckUser userId])
  | Except.error _ =>
      ({ s with screen := Screen.welcome }, [Effect.fetchCheckUser userId])

/-- `startQuiz` (app.js lines 78-105).  On a rejected catalog fetch the
`catch` runs before any state mutation: error screen, fixed message, no
timer.  On success: concatenate the three pools, shuffle, reset
`startTime`/index/answers (`timeRemaining` is NOT touched), show the quiz
screen, start the timer, then `displayQuestion()`.  When the shuffled list
is empty, `displayQuestion` dereferences `allQuestions[0]` which is
`undefined`, throws inside the `try`, and the same `catch` shows the error
screen — after the timer has already been started. -/
def startQuiz (randFloor : Nat → Nat) (fetchResult : Except Unit Catalog)
    (now : Nat) (s : AppState) : AppState × List Effect :=
  match fetchResult with
  | Except.error _ =>
      ({ s with screen := Screen.error, errorMessage := couldNotLoadMsg },
       [Effect.fetchQuestions])
  | Except.ok data =>
      let qs := shuffleArray randFloor (data.statistics ++ data.probability ++ data.ml)
      let s₁ := { s with
                  allQuestions := qs
                  startTime := now
                  currentQuestionIndex := 0
                  userAnswers := []
                  screen := Screen.quiz
                  timerActive := true }
      if qs.isEmpty then
        ({ s₁ with screen := Screen.error, errorMessage := couldNotLoadMsg },
         [Effect.fetchQuestions, Effect.startTimerEffect])
      else
        (s₁, [Effect.fetchQuestions, Effect.startTimerEffect])

/-- `finishQuiz` (app.js lines 179-214): cancel the timer, compute elapsed
seconds, build the submission record (with a freshly drawn guest
identifier when the platform supplies none), show the final screen. -/
def finishQuiz (endTime : Nat) (platformUserId : Option Nat) (randomDraw : String)
    (platformUsername : Option String) (s : AppState) : AppState × SubmitRecord :=
  let timeSpent := (endTime - s.startTime) / 1000
  let record : SubmitRecord :=
    { telegram_user_id := jsUserId platformUserId randomDraw
      username := platformUsername.getD "Anonymous"
      answers := s.userAnswers
      time_spent := timeSpent
      questions := s.allQuestions.map Question.id }
  ({ s with timerActive := false, screen := Screen.final }, record)

/-- `selectAnswer` (app.js lines 148-159): push the chosen option index,
advance the question index; if questions remain re-render, otherwise call
`finishQuiz` (the emitted record, when any, is returned as `some`). -/
def selectAnswer (answerIndex endTime : Nat) (platformUserId : Option Nat)
    (randomDraw : String) (platformUsername : Option String) (s : AppState) :
    AppState × Option SubmitRecord :=
  let s₁ := { s with
              userAnswers := s.userAnswers ++ [answerIndex]
              currentQuestionIndex := s.currentQuestionIndex + 1 }
  if s₁.currentQuestionIndex < s₁.allQuestions.length then
    (s₁, none)
  else
    let f := finishQuiz endTime platformUserId randomDraw platformUsername s₁
    (f.1, some f.2)

/-- One tick of the interval registered by `startTimer` (app.js lines
162-176): runs only while the interval is live; decrement
`timeRemaining`; when it reaches `≤ 0`, `clearInterval` then `finishQuiz`. -/
def timerTick (endTime : Nat) (platformUserId : Option Nat) (randomDraw : String)
    (platformUsername : Option String) (s : AppState) : AppState × Option SubmitRecord :=
  if s.timerActive then
    let s₁ := { s with timeRemaining := s.timeRemaining - 1 }
    if s₁.timeRemaining ≤ 0 then
      let s₂ := { s₁ with timerActive := false }
      let f := finishQuiz endTime platformUserId randomDraw platformUsername s₂
      (f.1, some f.2)
    else
      (s₁, none)
  else
    (s, none)

/-!
## Event-driven execution model

The browser runs `app.js` single-threaded: each UI callback, timer tick or
promise continuation runs to completion before the next.  `StepL` captures
the events that can fire in a given state:

* `init`'s continuation runs once, from the loading screen;
* the start button exists only on the welcome screen;
* option buttons exist only on the quiz screen, rendered by
  `displayQuestion` for the question at the current index (hence
  `currentQuestionIndex < allQuestions.length`);
* the interval callback fires only while the interval is live.

A step is labelled with the submission it performs, if any, tagged with
whether it was a timeout (`timerTick`) or an answer-triggered finish.
-/

/-- Step label: either no submission, or a submitted record tagged with
whether the quiz ended by timeout. -/
inductive Lab
  | silent
  | submitted (byTimeout : Bool) (record : SubmitRecord)

/-- Tag an optional emitted record as a label. -/
def labOf (byTimeout : Bool) : Option SubmitRecord → Lab
  | none => Lab.silent
  | some record => Lab.submitted byTimeout record

/-- The events the browser can deliver in a given state. -/
inductive StepL : AppState → Lab → AppState → Prop
  | initDone (p : Option Nat) (r : String) (c : Except Unit Bool) (s : AppState) :
      s.screen = Screen.loading →
      StepL s Lab.silent (init p r c s).1
  | startClicked (rf : Nat → Nat) (fr : Except Unit Catalog) (now : Nat) (s : AppState) :
      s.screen = Screen.welcome →
      StepL s Lab.silent (startQuiz rf fr now s).1
  | answerClicked (ai e : Nat) (p : Option Nat) (r : String) (u : Option String)
      (s : AppState) :
      s.screen = Screen.quiz →
      s.currentQuestionIndex < s.allQuestions.length →
      StepL s (labOf false (selectAnswer ai e p r u s).2) (selectAnswer ai e p r u s).1
  | tickFired (e : Nat) (p : Option Nat) (r : String) (u : Option String)
      (s : AppState) :
      s.timerActive = true →
      StepL s (labOf true (timerTick e p r u s).2) (timerTick e p r u s).1

/-- Unlabelled step. -/
def Step (s t : AppState) : Prop := ∃ l, StepL s l t

/-- States reachable from the module-load state. -/
def Reachable (s : AppState) : Prop :=
  Relation.ReflTransGen Step initialState s

/-- The client-state invariant: the answer list has exactly one entry per
answered question, the index never passes the end of the question list,
and while the timer is live either a question is still pending or the
catalog was empty. -/
def Inv (s : AppState) : Prop :=
  s.userAnswers.length = s.currentQuestionIndex ∧
  s.currentQuestionIndex ≤ s.allQuestions.length ∧
  (s.timerActive = true →
    s.currentQuestionIndex < s.allQuestions.length ∨ s.allQuestions = [])

theorem inv_initialState : Inv initialState := by
  simp [Inv, initialState]

theorem inv_step {s t : AppState} {l : Lab} (hs : Inv s) (hst : StepL s l t) :
    Inv t := by
  obtain ⟨h1, h2, h3⟩ := hs
  cases hst with
  | initDone p r c s hscr =>
      cases c with
      | ok b => cases b <;> simp_all [Inv, init]
      | error e => simp_all [Inv, init]
  | startClicked rf fr now s hscr =>
      cases fr with
      | error e => simp_all [Inv, startQuiz]
      | ok data =>
          simp only [startQuiz, Inv]
          split
          case isTrue hq =>
            refine ⟨by simp, by simp, fun _ => Or.inr ?_⟩
            simpa [List.isEmpty_iff] using hq
          case isFalse hq =>
            have hne : shuffleArray rf (data.statistics ++ data.probability ++ data.ml) ≠ [] := by
              simpa [List.isEmpty_iff] using hq
            refine ⟨by simp, by simp, fun _ => Or.inl ?_⟩
            simpa [List.length_pos] using hne
  | answerClicked ai e p r u s hscr hlt =>
      simp only [selectAnswer, Inv]
      split
      case isTrue hcond =>
        refine ⟨by simp [h1], ?_, fun _ => Or.inl ?_⟩
        · have := (by simpa using hcond : s.currentQuestionIndex + 1 < s.allQuestions.length)
          simpa using this.le
        · simpa using hcond
      case isFalse hcond =>
        refine ⟨by simp [finishQuiz, h1], by simpa [finishQuiz] using hlt, ?_⟩
        simp [finishQuiz]
  | tickFired e p r u s hta =>
      simp only [timerTick, hta, if_true, Inv]
      split
      case isTrue =>
        refine ⟨by simp [finishQuiz, h1], by simp [finishQuiz, h2], ?_⟩
        simp [finishQuiz]
      case isFalse =>
        exact ⟨h1, h2, fun _ => h3 hta⟩

theorem reachable_inv (s : AppState) (h : Reachable s) : Inv s := by
  induction h with
  | refl => exact inv_initialState
  | tail _ hbc ih =>
      obtain ⟨l, hl⟩ := hbc
      exact inv_step ih hl

/-! ### The shuffle is a permutation -/

theorem cons_get_set_perm (t : List α) (k : Nat) (hk : k < t.length) (x : α) :
    List.Perm (t.get ⟨k, hk⟩ :: t.set k x) (x :: t) := by
  induction t generalizing k with
  | nil => simp at hk
  | cons y t ih =>
      cases k with
      | zero => simpa using List.Perm.swap x y t
      | succ m =>
          have hm : m < t.length := by simpa using hk
          have step1 : List.Perm (t.get ⟨m, hm⟩ :: y :: t.set m x)
              (y :: t.get ⟨m, hm⟩ :: t.set m x) :=
            List.Perm.swap y (t.get ⟨m, hm⟩) (t.set m x)
          have step2 : List.Perm (y :: t.get ⟨m, hm⟩ :: t.set m x) (y :: x :: t) :=
            (ih m hm).cons y
          have step3 : List.Perm (y :: x :: t) (x :: y :: t) := List.Perm.swap x y t
          simpa using (step1.trans step2).trans step3

theorem set_set_perm (l : List α) (i j : Nat) (hi : i < l.length) (hj : j < l.length) :
    List.Perm ((l.set i (l.get ⟨j, hj⟩)).set j (l.get ⟨i, hi⟩)) l := by
  induction l generalizing i j with
  | nil => simp at hi
  | cons x t ih =>
      cases i with
      | zero =>
          cases j with
          | zero => simp
          | succ k =>
              have hk : k < t.length := by simpa using hj
              simpa using cons_get_set_perm t k hk x
      | succ m =>
          cases j with
          | zero =>
              have hm : m < t.length := by simpa using hi
              simpa using cons_get_set_perm t m hm x
          | succ k =>
              have hm : m < t.length := by simpa using hi
              have hk : k < t.length := by simpa using hj
              simpa using (ih m k hm hk).cons x

theorem swapAt_perm (l : List α) (i j : Nat) : List.Perm (swapAt' l i j) l := by
  cases hi : l[i]? with
  | none => simp [swapAt', hi]
  | some a =>
      cases hj : l[j]? with
      | none => simp [swapAt', hi, hj]
      | some b =>
          obtain ⟨hilt, ha⟩ := List.getElem?_eq_some.mp hi
          obtain ⟨hjlt, hb⟩ := List.getElem?_eq_some.mp hj
          simp only [swapAt', hi, hj]
          have hperm := set_set_perm l i j hilt hjlt
          have ha' : l.get ⟨i, hilt⟩ = a := by simpa [List.get_eq_getElem] using ha
          have hb' : l.get ⟨j, hjlt⟩ = b := by simpa [List.get_eq_getElem] using hb
          rwa [ha', hb'] at hperm

theorem shuffleLoop_perm (randFloor : Nat → Nat) (l : List α) (i : Nat) :
    List.Perm (shuffleLoop randFloor l i) l := by
  induction i generalizing l with
  | zero => exact List.Perm.refl l
  | succ m ih =>
      exact (ih (swapAt' l (m + 1) (randFloor (m + 2)))).trans
        (swapAt_perm l (m + 1) (randFloor (m + 2)))

/-!
## Claims
-/

/-- C1: the server's route table serves the questions catalog and a bulk
results read, but has no handler for the client's pre-check
`GET /data/check-user/{userId}` nor for its submission
`POST /data/submit`: those requests match no registered route.  This
evaluates the route table at the client's two Result-Store requests. -/
theorem server_lacks_result_store_routes :
    serverHandles "GET" ["data", "check-user", "12345"] = false ∧
    serverHandles "POST" ["data", "submit"] = false ∧
    serverHandles "GET" ["data", "questions"] = true ∧
    serverHandles "GET" ["data", "users_results"] = true := by
  refine ⟨by decide, by decide, by decide, by decide⟩

/-- C2 (amended): `startQuiz` on a successful catalog fetch resets the
question index to `0`, the answer list to empty and the start timestamp to
now, but it does NOT assign `timeRemaining`: the countdown keeps whatever
value it had, and equals `900` only because the module-load state
initialises it to `QUIZ_TIME` (so it is 900 on the first start of a fresh
page, not as a property of `startQuiz`). -/
theorem startQuiz_resets_index_answers_not_countdown
    (randFloor : Nat → Nat) (data : Catalog) (now : Nat) (s : AppState) :
    ((startQuiz randFloor (Except.ok data) now s).1.currentQuestionIndex = 0) ∧
    ((startQuiz randFloor (Except.ok data) now s).1.userAnswers = []) ∧
    ((startQuiz randFloor (Except.ok data) now s).1.startTime = now) ∧
    ((startQuiz randFloor (Except.ok data) now s).1.timeRemaining = s.timeRemaining) ∧
    initialState.timeRemaining = 900 := by
  simp only [startQuiz]
  split
  · exact ⟨rfl, rfl, rfl, rfl, by decide⟩
  · exact ⟨rfl, rfl, rfl, rfl, by decide⟩

/-- C2 (counterexample): an invocation of `startQuiz` that succeeds in
fetching a (one-question) catalog, made from a welcome-screen state whose
countdown has already dropped to 899 — e.g. after a double-click on the
start button lets a first timer tick run before the second invocation's
fetch resolves.  Entry to the in-progress state happens (quiz screen,
timer started, index 0) yet the countdown is 899, not 900: `startQuiz`
never assigns `timeRemaining`. -/
theorem startQuiz_countdown_not_reset_cx :
    ((startQuiz (fun _ => 0)
        (Except.ok { statistics := [{ id := 1, question := "q", options := ["a", "b"] }],
                     probability := [], ml := [] }) 5
        { initialState with screen := Screen.welcome, timeRemaining := 899 }).1.screen
      = Screen.quiz) ∧
    ((startQuiz (fun _ => 0)
        (Except.ok { statistics := [{ id := 1, question := "q", options := ["a", "b"] }],
                     probability := [], ml := [] }) 5
        { initialState with screen := Screen.welcome, timeRemaining := 899 }).1.timerActive
      = true) ∧
    ((startQuiz (fun _ => 0)
        (Except.ok { statistics := [{ id := 1, question := "q", options := ["a", "b"] }],
                     probability := [], ml := [] }) 5
        { initialState with screen := Screen.welcome, timeRemaining := 899 }).1.currentQuestionIndex
      = 0) ∧
    ¬((startQuiz (fun _ => 0)
        (Except.ok { statistics := [{ id := 1, question := "q", options := ["a", "b"] }],
                     probability := [], ml := [] }) 5
        { initialState with screen := Screen.welcome, timeRemaining := 899 }).1.timeRemaining
      = 900) := by
  refine ⟨rfl, rfl, rfl, by decide⟩

/-- C3: when the countdown reaches zero on a live timer (one tick from a
state with at most one second left), `finishQuiz` is triggered exactly
once — the tick emits a submission — the interval is cancelled
(`timerActive = false`, final screen shown), and any later tick of the
resulting state is a no-op: no further decrement and no second
completion. -/
theorem timeout_finishes_exactly_once
    (e : Nat) (p : Option Nat) (r : String) (u : Option String) (s : AppState)
    (hActive : s.timerActive = true) (hZero : s.timeRemaining ≤ 1) :
    ((timerTick e p r u s).2.isSome = true) ∧
    ((timerTick e p r u s).1.timerActive = false) ∧
    ((timerTick e p r u s).1.screen = Screen.final) ∧
    (∀ (e' : Nat) (p' : Option Nat) (r' : String) (u' : Option String),
      timerTick e' p' r' u' (timerTick e p r u s).1 = ((timerTick e p r u s).1, none)) := by
  have hz : s.timeRemaining - 1 ≤ 0 := by omega
  refine ⟨?_, ?_, ?_, ?_⟩
  · simp [timerTick, hActive, hz, finishQuiz]
  · simp [timerTick, hActive, hz, finishQuiz]
  · simp [timerTick, hActive, hz, finishQuiz]
  · intro e' p' r' u'
    simp [timerTick, hActive, hz, finishQuiz]

/-- C3 witness: a concrete in-progress state with one second left. -/
theorem timeout_finishes_exactly_once_witness :
    ({ initialState with screen := Screen.quiz, timerActive := true, timeRemaining := 1 } : AppState).timerActive = true ∧
    ((timerTick 7 none "0.5" none { initialState with screen := Screen.quiz, timerActive := true, timeRemaining := 1 }).2.isSome = true) :=
  ⟨rfl,
   (timeout_finishes_exactly_once 7 none "0.5" none
      { initialState with screen := Screen.quiz, timerActive := true, timeRemaining := 1 }
      rfl (by decide)).1⟩

/-- C4: from any in-progress state (question index strictly below the
question count), `selectAnswer` appends exactly the chosen option index to
the answer list (length grows by one), advances the index by one, and the
single completion (`finishQuiz`, emitting the one submission) is triggered
if and only if the new index equals the number of questions. -/
theorem selectAnswer_appends_and_advances
    (ai e : Nat) (p : Option Nat) (r : String) (u : Option String) (s : AppState)
    (h : s.currentQuestionIndex < s.allQuestions.length) :
    ((selectAnswer ai e p r u s).1.userAnswers = s.userAnswers ++ [ai]) ∧
    ((selectAnswer ai e p r u s).1.userAnswers.length = s.userAnswers.length + 1) ∧
    ((selectAnswer ai e p r u s).1.currentQuestionIndex = s.currentQuestionIndex + 1) ∧
    ((selectAnswer ai e p r u s).2.isSome = true ↔
      s.currentQuestionIndex + 1 = s.allQuestions.length) := by
  simp only [selectAnswer]
  split
  case isTrue hc =>
      have hc' : s.currentQuestionIndex + 1 < s.allQuestions.length := by simpa using hc
      refine ⟨rfl, by simp, rfl, ?_⟩
      simp only [Option.isSome_none]
      constructor
      · intro hfalse; exact absurd hfalse (by decide)
      · intro heq; omega
  case isFalse hc =>
      have hc' : ¬(s.currentQuestionIndex + 1 < s.allQuestions.length) := by simpa using hc
      refine ⟨rfl, by simp [finishQuiz], by simp [finishQuiz], ?_⟩
      simp only [Option.isSome_some, true_iff]
      omega

/-- C4 witness: answering the sole question of a one-question quiz. -/
theorem selectAnswer_appends_and_advances_witness :
    ({ initialState with allQuestions := [{ id := 1, question := "q", options := ["a"] }], screen := Screen.quiz } : AppState).currentQuestionIndex < ({ initialState with allQuestions := [{ id := 1, question := "q", options := ["a"] }], screen := Screen.quiz } : AppState).allQuestions.length ∧
    ((selectAnswer 0 3 none "0.5" none { initialState with allQuestions := [{ id := 1, question := "q", options := ["a"] }], screen := Screen.quiz }).2.isSome = true) :=
  ⟨by decide,
   (selectAnswer_appends_and_advances 0 3 none "0.5" none
      { initialState with allQuestions := [{ id := 1, question := "q", options := ["a"] }], screen := Screen.quiz }
      (by decide)).2.2.2.mpr (by decide)⟩

/-- C5: for every input list and every choice of random draws,
`shuffleArray` returns a permutation of its input: same length and same
multiset of elements. -/
theorem shuffleArray_is_permutation (randFloor : Nat → Nat) (array : List α) :
    List.Perm (shuffleArray randFloor array) array ∧
    (shuffleArray randFloor array).length = array.length ∧
    (shuffleArray randFloor array : Multiset α) = (array : Multiset α) := by
  have h : List.Perm (shuffleArray randFloor array) array :=
    shuffleLoop_perm randFloor array (array.length - 1)
  exact ⟨h, h.length_eq, Quot.sound h⟩

/-- C6: when the pre-check reports `completed: true`, `init` routes
straight to the error screen with the fixed "already completed" message,
performs only the pre-check fetch (in particular it never fetches
questions), and — the timer being off at that point — the resulting state
admits no further step at all: neither the welcome nor the in-progress
state can ever be reached. -/
theorem init_already_completed_routes_to_error
    (p : Option Nat) (r : String) (s : AppState) (h : s.timerActive = false) :
    ((init p r (Except.ok true) s).1.screen = Screen.error) ∧
    ((init p r (Except.ok true) s).1.errorMessage = alreadyCompletedMsg) ∧
    ((init p r (Except.ok true) s).2 = [Effect.fetchCheckUser (jsUserId p r)]) ∧
    (Effect.fetchQuestions ∉ (init p r (Except.ok true) s).2) ∧
    (∀ (l : Lab) (t : AppState), ¬ StepL (init p r (Except.ok true) s).1 l t) := by
  refine ⟨rfl, rfl, rfl, by simp [init], ?_⟩
  intro l t hst
  cases hst with
  | initDone p' r' c' s' hscr => simp [init] at hscr
  | startClicked rf fr now s' hscr => simp [init] at hscr
  | answerClicked ai e p' r' u s' hscr hlt => simp [init] at hscr
  | tickFired e p' r' u s' hta => simp [init, h] at hta

/-- C6 witness: a fresh page (timer off) whose pre-check comes back
`completed: true`. -/
theorem init_already_completed_routes_to_error_witness :
    initialState.timerActive = false ∧
    ((init none "0.5" (Except.ok true) initialState).1.screen = Screen.error) ∧
    ((init none "0.5" (Except.ok true) initialState).1.errorMessage = alreadyCompletedMsg) :=
  ⟨rfl,
   (init_already_completed_routes_to_error none "0.5" initialState rfl).1,
   (init_already_completed_routes_to_error none "0.5" initialState rfl).2.1⟩

/-- C7: when the catalog fetch rejects, `startQuiz` shows the error screen
with the fixed "could not load" message before any state mutation: the
question list is untouched, the timer is not started (no timer effect, the
flag keeps its — off — value), and the resulting state admits no further
step, so the in-progress state is never reached. -/
theorem startQuiz_fetch_failure_routes_to_error
    (randFloor : Nat → Nat) (now : Nat) (s : AppState) (h : s.timerActive = false) :
    ((startQuiz randFloor (Except.error ()) now s).1.screen = Screen.error) ∧
    ((startQuiz randFloor (Except.error ()) now s).1.errorMessage = couldNotLoadMsg) ∧
    ((startQuiz randFloor (Except.error ()) now s).1.timerActive = false) ∧
    ((startQuiz randFloor (Except.error ()) now s).1.allQuestions = s.allQuestions) ∧
    ((startQuiz randFloor (Except.error ()) now s).2 = [Effect.fetchQuestions]) ∧
    (∀ (l : Lab) (t : AppState), ¬ StepL (startQuiz randFloor (Except.error ()) now s).1 l t) := by
  refine ⟨rfl, rfl, h, rfl, rfl, ?_⟩
  intro l t hst
  cases hst with
  | initDone p' r' c' s' hscr => simp [startQuiz] at hscr
  | startClicked rf fr now' s' hscr => simp [startQuiz] at hscr
  | answerClicked ai e p' r' u s' hscr hlt => simp [startQuiz] at hscr
  | tickFired e p' r' u s' hta => simp [startQuiz, h] at hta

/-- C7 witness: a fresh welcome-screen page whose catalog fetch rejects. -/
theorem startQuiz_fetch_failure_routes_to_error_witness :
    ({ initialState with screen := Screen.welcome } : AppState).timerActive = false ∧
    ((startQuiz (fun _ => 0) (Except.error ()) 0 { initialState with screen := Screen.welcome }).1.screen = Screen.error) ∧
    ((startQuiz (fun _ => 0) (Except.error ()) 0 { initialState with screen := Screen.welcome }).1.errorMessage = couldNotLoadMsg) :=
  ⟨rfl,
   (startQuiz_fetch_failure_routes_to_error (fun _ => 0) 0
      { initialState with screen := Screen.welcome } rfl).1,
   (startQuiz_fetch_failure_routes_to_error (fun _ => 0) 0
      { initialState with screen := Screen.welcome } rfl).2.1⟩

/-- C8: the topic label is a pure total function of the question
identifier alone — identifiers 1-3 yield the statistics label, 4-6 the
probability label, 7 and above the machine-learning label; every
identifier yields one of the three pairwise distinct labels, hence exactly
one topic bucket. -/
theorem topic_label_pure_function (id : Nat) :
    (1 ≤ id ∧ id ≤ 3 → getTopicName id = statisticsLabel) ∧
    (4 ≤ id ∧ id ≤ 6 → getTopicName id = probabilityLabel) ∧
    (7 ≤ id → getTopicName id = mlLabel) ∧
    (getTopicName id = statisticsLabel ∨ getTopicName id = probabilityLabel ∨
      getTopicName id = mlLabel) ∧
    (statisticsLabel ≠ probabilityLabel ∧ statisticsLabel ≠ mlLabel ∧
      probabilityLabel ≠ mlLabel) := by
  refine ⟨fun h => ?_, fun h => ?_, fun h => ?_, ?_, by decide, by decide, by decide⟩
  · simp [getTopicName, h.2]
  · have h3 : ¬ id ≤ 3 := by omega
    simp [getTopicName, h3, h.2]
  · have h3 : ¬ id ≤ 3 := by omega
    have h6 : ¬ id ≤ 6 := by omega
    simp [getTopicName, h3, h6]
  · unfold getTopicName
    split
    · exact Or.inl rfl
    split
    · exact Or.inr (Or.inl rfl)
    · exact Or.inr (Or.inr rfl)

/-- C8 witness: one identifier from each range. -/
theorem topic_label_pure_function_witness :
    (1 ≤ 2 ∧ 2 ≤ 3) ∧ getTopicName 2 = statisticsLabel ∧
    (4 ≤ 5 ∧ 5 ≤ 6) ∧ getTopicName 5 = probabilityLabel ∧
    7 ≤ 9 ∧ getTopicName 9 = mlLabel :=
  ⟨by decide, (topic_label_pure_function 2).1 (by decide),
   by decide, (topic_label_pure_function 5).2.1 (by decide),
   by decide, (topic_label_pure_function 9).2.2.1 (by decide)⟩

/-- C10: when the platform supplies no user identifier, the identifier
`init` sends to the pre-check and the identifier `finishQuiz` writes into
the submitted record are built from independent fresh random draws (the
`tg... || 'test_user_' + Math.random()` expression is evaluated anew in
each function), so the pre-check identifier is a function of the draw, not
of session state, and for some pairs of outcomes the two identifiers
differ. -/
theorem guest_identifier_independent_draws :
    (∀ (p : Option Nat) (r : String) (c : Except Unit Bool) (s : AppState),
      (init p r c s).2 = [Effect.fetchCheckUser (jsUserId p r)]) ∧
    (∀ (e : Nat) (p : Option Nat) (r : String) (u : Option String) (s : AppState),
      ((finishQuiz e p r u s).2).telegram_user_id = jsUserId p r) ∧
    jsUserId none "0.111" ≠ jsUserId none "0.222" ∧
    jsUserId none "0.111" = jsUserId none "0.111" := by
  refine ⟨?_, ?_, by decide, rfl⟩
  · intro p r c s
    cases c with
    | ok b => cases b <;> rfl
    | error e => rfl
  · intro e p r u s
    rfl

/-! ### Submitted-record bounds (C9) -/

theorem selectAnswer_emits (ai e : Nat) (p : Option Nat) (r : String) (u : Option String)
    (s : AppState) (rec0 : SubmitRecord) (h : (selectAnswer ai e p r u s).2 = some rec0) :
    ¬(s.currentQuestionIndex + 1 < s.allQuestions.length) ∧
    rec0.answers.length = s.userAnswers.length + 1 ∧
    rec0.questions.length = s.allQuestions.length := by
  simp only [selectAnswer] at h
  split at h
  case isTrue hc => exact absurd h (by simp)
  case isFalse hc =>
      simp only [Option.some.injEq] at h
      subst h
      refine ⟨by simpa using hc, ?_, ?_⟩ <;> simp [finishQuiz]

theorem timerTick_emits (e : Nat) (p : Option Nat) (r : String) (u : Option String)
    (s : AppState) (rec0 : SubmitRecord) (h : (timerTick e p r u s).2 = some rec0) :
    s.timerActive = true ∧
    rec0.answers.length = s.userAnswers.length ∧
    rec0.questions.length = s.allQuestions.length := by
  simp only [timerTick] at h
  split at h
  case isTrue hta =>
      split at h
      case isTrue hz =>
          simp only [Option.some.injEq] at h
          subst h
          refine ⟨hta, ?_, ?_⟩ <;> simp [finishQuiz]
      case isFalse hz => exact absurd h (by simp)
  case isFalse hta => exact absurd h (by simp)

theorem step_submit_bound {s t : AppState} {l : Lab} (hInv : Inv s) (hst : StepL s l t) :
    ∀ (b : Bool) (record : SubmitRecord), l = Lab.submitted b record →
      record.answers.length ≤ record.questions.length ∧
      (b = false → record.answers.length = record.questions.length) ∧
      (b = true → record.questions.length ≠ 0 →
        record.answers.length < record.questions.length) := by
  obtain ⟨h1, h2, h3⟩ := hInv
  cases hst with
  | initDone p r c s hscr =>
      intro b record heq
      exact absurd heq (by simp)
  | startClicked rf fr now s hscr =>
      intro b record heq
      exact absurd heq (by simp)
  | answerClicked ai e p r u s hscr hlt =>
      intro b record heq
      cases hopt : (selectAnswer ai e p r u s).2 with
      | none => rw [hopt] at heq; exact absurd heq (by simp [labOf])
      | some rec0 =>
          rw [hopt] at heq
          simp only [labOf, Lab.submitted.injEq] at heq
          obtain ⟨hb, hrec⟩ := heq
          subst hb
          subst hrec
          obtain ⟨hno, hla, hlq⟩ := selectAnswer_emits ai e p r u s rec0 hopt
          refine ⟨by omega, fun _ => by omega, fun habs => by simp at habs⟩
  | tickFired e p r u s hta =>
      intro b record heq
      cases hopt : (timerTick e p r u s).2 with
      | none => rw [hopt] at heq; exact absurd heq (by simp [labOf])
      | some rec0 =>
          rw [hopt] at heq
          simp only [labOf, Lab.submitted.injEq] at heq
          obtain ⟨hb, hrec⟩ := heq
          subst hb
          subst hrec
          obtain ⟨_, hla, hlq⟩ := timerTick_emits e p r u s rec0 hopt
          refine ⟨by omega, fun habs => by simp at habs, fun _ hne => ?_⟩
          cases h3 hta with
          | inl hlt => omega
          | inr hnil =>
              rw [hlq, hnil] at hne
              simp at hne

/-- C9 (amended): in every reachable client state — in particular right
after a successful `startQuiz` and after every `selectAnswer` — the answer
list has exactly one entry per answered question and the index never
exceeds the question count; consequently every submitted record has an
answers array no longer than its questions array, a finish triggered by
answering the last question gives equal lengths, and a timeout finish
gives a strictly shorter answers array whenever the record has any
questions at all (an empty-catalog run can time out with `0 = 0`). -/
theorem submitted_record_answer_bound (s : AppState) (hreach : Reachable s) :
    (s.userAnswers.length = s.currentQuestionIndex ∧
      s.currentQuestionIndex ≤ s.allQuestions.length) ∧
    (∀ (b : Bool) (record : SubmitRecord) (t : AppState),
      StepL s (Lab.submitted b record) t →
        record.answers.length ≤ record.questions.length ∧
        (b = false → record.answers.length = record.questions.length) ∧
        (b = true → record.questions.length ≠ 0 →
          record.answers.length < record.questions.length)) := by
  have hInv := reachable_inv s hreach
  refine ⟨⟨hInv.1, hInv.2.1⟩, ?_⟩
  intro b record t hst
  exact step_submit_bound hInv hst b record rfl

/-- C9 witness: the module-load state is reachable. -/
theorem submitted_record_answer_bound_witness :
    (initialState.userAnswers.length = initialState.currentQuestionIndex ∧
      initialState.currentQuestionIndex ≤ initialState.allQuestions.length) ∧
    (∀ (b : Bool) (record : SubmitRecord) (t : AppState),
      StepL initialState (Lab.submitted b record) t →
        record.answers.length ≤ record.questions.length ∧
        (b = false → record.answers.length = record.questions.length) ∧
        (b = true → record.questions.length ≠ 0 →
          record.answers.length < record.questions.length)) :=
  submitted_record_answer_bound initialState Relation.ReflTransGen.refl

/-! ### C9 counterexample: a timeout submission with equal lengths

A catalog whose three pools are all empty is fetched successfully;
`startQuiz` then starts the timer before `displayQuestion` throws, so the
timer ticks down on the error screen and, 900 seconds later, times out and
submits a record with zero answers and zero questions — a submission
caused by the timeout whose answers array is NOT strictly shorter than its
questions array. -/

/-- The catalog with three empty pools. -/
def emptyCatalog : Catalog := { statistics := [], probability := [], ml := [] }

/-- The state of the empty-catalog run after `k` timer ticks: error screen,
live timer, no questions, countdown at `900 - k`. -/
def cxTimeoutState (k : Nat) : AppState :=
  { currentQuestionIndex := 0
    allQuestions := []
    userAnswers := []
    startTime := 0
    timerActive := true
    timeRemaining := 900 - (k : Int)
    screen := Screen.error
    errorMessage := couldNotLoadMsg }

/-- The record the empty-catalog run submits on timeout. -/
def cxRecord : SubmitRecord :=
  { telegram_user_id := "test_user_0.5"
    username := "Anonymous"
    answers := []
    time_spent := 0
    questions := [] }

theorem timerTick_noFinish (e : Nat) (p : Option Nat) (r : String) (u : Option String)
    (s : AppState) (h1 : s.timerActive = true) (h2 : 1 < s.timeRemaining) :
    timerTick e p r u s = ({ s with timeRemaining := s.timeRemaining - 1 }, none) := by
  have hcond : ¬(s.timeRemaining - 1 ≤ 0) := by omega
  simp [timerTick, h1, hcond]

theorem cx_reachable : ∀ k : Nat, k ≤ 899 → Reachable (cxTimeoutState k) := by
  intro k
  induction k with
  | zero =>
      intro _
      have s1 : StepL initialState Lab.silent (init none "0.5" (Except.ok false) initialState).1 :=
        StepL.initDone none "0.5" (Except.ok false) initialState rfl
      have s2 : StepL (init none "0.5" (Except.ok false) initialState).1 Lab.silent
          (startQuiz (fun _ => 0) (Except.ok emptyCatalog) 0
            (init none "0.5" (Except.ok false) initialState).1).1 :=
        StepL.startClicked (fun _ => 0) (Except.ok emptyCatalog) 0 _ rfl
      have heq : (startQuiz (fun _ => 0) (Except.ok emptyCatalog) 0
          (init none "0.5" (Except.ok false) initialState).1).1 = cxTimeoutState 0 := by decide
      rw [heq] at s2
      exact (Relation.ReflTransGen.refl.tail ⟨_, s1⟩).tail ⟨_, s2⟩
  | succ k ih =>
      intro hk
      have hr := ih (by omega)
      have h1 : (cxTimeoutState k).timerActive = true := rfl
      have h2 : 1 < (cxTimeoutState k).timeRemaining := by
        show (1 : Int) < 900 - (k : Int)
        omega
      have hstate : ({ cxTimeoutState k with
          timeRemaining := (cxTimeoutState k).timeRemaining - 1 } : AppState) =
          cxTimeoutState (k + 1) := by
        simp [cxTimeoutState, AppState.mk.injEq]
        omega
      have hstep := StepL.tickFired 0 none "0.5" none (cxTimeoutState k) h1
      rw [timerTick_noFinish 0 none "0.5" none (cxTimeoutState k) h1 h2] at hstep
      simp only [labOf] at hstep
      rw [hstate] at hstep
      exact hr.tail ⟨_, hstep⟩

/-- C9 (counterexample): after 899 ticks of the empty-catalog run the
state is reachable with one second left; the next tick is a step that
submits `cxRecord` by timeout, and that record's answers array is exactly
as long as its questions array — not strictly shorter — refuting the
"strictly shorter exactly when the quiz ended by timeout" part of the
claim. -/
theorem timeout_record_not_strictly_shorter_cx :
    Reachable (cxTimeoutState 899) ∧
    StepL (cxTimeoutState 899) (Lab.submitted true cxRecord)
      (timerTick 0 none "0.5" none (cxTimeoutState 899)).1 ∧
    cxRecord.answers.length = cxRecord.questions.length := by
  refine ⟨cx_reachable 899 (by omega), ?_, rfl⟩
  exact StepL.tickFired 0 none "0.5" none (cxTimeoutState 899) rfl

end SberQuiz
